import Mathlib

/-!
Verification of the transaction aggregation-and-normalization pipeline of
the ethereum-transaction-tracker repository.

The Lean definitions below are a shallow embedding of the Python sources:
  - src/models/enums.py            (TransactionStatus, TransactionType)
  - src/models/transaction.py      (Transaction, TokenTransfer, InternalTransaction)
  - src/processors/data_categorizer.py (DataCategorizer)
  - src/processors/transaction_processor.py (TransactionProcessor)
  - src/api/etherscan_client.py    (error policy of the three fetch endpoints)

Python datetimes are embedded as natural numbers (epoch seconds), Decimal
values as rationals, and a Python dict used as a metadata bag as a function
from keys to optional values (Python dict equality is content based and
ignores insertion order, which this representation matches).
-/

/-- Embedding of enums.TransactionStatus. -/
inductive TransactionStatus where
  | success
  | failed
  | pending
  | unknown
deriving DecidableEq, Repr

/-- Embedding of enums.TransactionType. -/
inductive TransactionType where
  | ethTransfer
  | erc20Transfer
  | erc721Transfer
  | erc1155Transfer
  | internalTransfer
  | contractInteraction
  | failedTransaction
deriving DecidableEq, Repr

/-- A value stored in a transaction's raw_data dict: the code stores
booleans, strings, and Python None there. -/
inductive RawVal where
  | bool (b : Bool)
  | str (s : String)
  | null
deriving DecidableEq, Repr

/-- The raw_data metadata bag: a Python dict from string keys to values,
represented extensionally (dict equality in Python ignores order). -/
def RawData : Type := String → Option RawVal

/-- The empty dict. -/
def RawData.empty : RawData := fun _ => none

/-- Dict item assignment d[k] = v. -/
def RawData.set (d : RawData) (k : String) (v : RawVal) : RawData :=
  fun q => if q = k then some v else d q

/-- Embedding of Transaction._checksum_address: identity on the empty
string and on a bare 0x prefix, lowercasing otherwise (str.lower applied
characterwise). -/
def checksum_address (address : String) : String :=
  if address = "" ∨ address = "0x" then address
  else String.mk (address.data.map Char.toLower)

/-- Embedding of the Transaction dataclass (models/transaction.py). -/
@[ext]
structure Transaction where
  hash : String
  block_number : Nat
  timestamp : Nat
  from_address : String
  to_address : String
  value : Rat
  gas_used : Nat
  gas_price : Rat
  transaction_fee : Rat
  status : TransactionStatus
  transaction_type : TransactionType
  nonce : Nat
  transaction_index : Nat
  contract_address : Option String := none
  token_symbol : Option String := none
  token_name : Option String := none
  token_decimals : Option Nat := none
  token_id : Option String := none
  input_data : Option String := none
  method_id : Option String := none
  raw_data : RawData := RawData.empty

/-- Embedding of Transaction.__post_init__: addresses are normalized with
the placeholder checksum (lowercasing) on construction; the optional
contract address is normalized only when truthy, exactly as the source
guards it with `if self.contract_address`. -/
def Transaction.postInit (t : Transaction) : Transaction :=
  { t with
    from_address := checksum_address t.from_address
    to_address := checksum_address t.to_address
    contract_address :=
      match t.contract_address with
      | some s => if s.isEmpty then some s else some (checksum_address s)
      | none => none }

/-- Embedding of the TokenTransfer dataclass. -/
structure TokenTransfer where
  contract_address : String
  from_address : String
  to_address : String
  value : Rat
  token_name : Option String := none
  token_symbol : Option String := none
  token_decimals : Option Nat := none
  token_id : Option String := none
  transaction_hash : String := ""
  block_number : Nat := 0
  timestamp : Option Nat := none
deriving DecidableEq, Repr

/-- Embedding of the InternalTransaction dataclass. -/
structure InternalTransaction where
  hash : String
  from_address : String
  to_address : String
  value : Rat
  gas_used : Nat
  block_number : Nat
  timestamp : Nat
  transaction_type : String := "call"
  is_error : Bool := false
  error_code : Option String := none
deriving DecidableEq, Repr

/-- Embedding of DataCategorizer._load_method_signatures. -/
def method_signatures : List (String × String) :=
  [("0xa9059cbb", "transfer(address,uint256)"),
   ("0x23b872dd", "transferFrom(address,address,uint256)"),
   ("0x095ea7b3", "approve(address,uint256)"),
   ("0x18160ddd", "totalSupply()"),
   ("0x70a08231", "balanceOf(address)")]

/-- Embedding of DataCategorizer._load_known_contracts (address mapped to
name and type). -/
def known_contracts : List (String × String × String) :=
  [("0xa0b86a33e6ba8c7fb7436fea2b7b3d8a7a3d3e1e", "Uniswap V2 Router", "DEX"),
   ("0x7a250d5630b4cf539739df2c5dacb4c659f2488d", "Uniswap V2 Router 02", "DEX")]

/-- First block of DataCategorizer._categorize_single_transaction: when
input data is truthy and longer than the bare 0x prefix, the first ten
characters are the method selector; a selector found in the signature
table is recorded as method_id, and the transfer and approve selectors
update the transaction type. -/
def applyMethodRule (transaction : Transaction) : Transaction :=
  match transaction.input_data with
  | some s =>
    if s.length > 2 then
      let mid := s.take 10
      if (method_signatures.lookup mid).isSome then
        let transaction := { transaction with method_id := some mid }
        if mid = "0xa9059cbb" ∨ mid = "0x23b872dd" then
          { transaction with transaction_type := TransactionType.erc20Transfer }
        else if mid = "0x095ea7b3" then
          { transaction with transaction_type := TransactionType.contractInteraction }
        else transaction
      else transaction
    else transaction
  | none => transaction

/-- Second block of DataCategorizer._categorize_single_transaction: a
failed status forces the failed-transaction type. -/
def applyFailedRule (transaction : Transaction) : Transaction :=
  if transaction.status = TransactionStatus.failed then
    { transaction with transaction_type := TransactionType.failedTransaction }
  else transaction

/-- Third block of DataCategorizer._categorize_single_transaction: a known
destination contract annotates the metadata bag. -/
def applyContractRule (transaction : Transaction) : Transaction :=
  match known_contracts.lookup transaction.to_address with
  | some info =>
    { transaction with
      raw_data :=
        RawData.set (RawData.set transaction.raw_data "contract_name" (RawVal.str info.1))
          "contract_type" (RawVal.str info.2) }
  | none => transaction

/-- Embedding of DataCategorizer._categorize_single_transaction: the three
blocks run in sequence on the same transaction. -/
def categorize_single_transaction (transaction : Transaction) : Transaction :=
  applyContractRule (applyFailedRule (applyMethodRule transaction))

/-- Embedding of DataCategorizer.categorize_transactions. -/
def categorize_transactions (transactions : List Transaction) : List Transaction :=
  transactions.map categorize_single_transaction

/-- The method selector that the first categorization block extracts and
recognizes, if any (a helper for stating lemmas; the rule itself is
applyMethodRule). -/
def selectorOf (transaction : Transaction) : Option String :=
  match transaction.input_data with
  | some s =>
    if s.length > 2 then
      if (method_signatures.lookup (s.take 10)).isSome then some (s.take 10) else none
    else none
  | none => none

/-- The transaction type after the first categorization block (a helper
for stating lemmas). -/
def typeFromSelector (transaction : Transaction) : TransactionType :=
  match selectorOf transaction with
  | some mid =>
    if mid = "0xa9059cbb" ∨ mid = "0x23b872dd" then TransactionType.erc20Transfer
    else if mid = "0x095ea7b3" then TransactionType.contractInteraction
    else transaction.transaction_type
  | none => transaction.transaction_type

/-- The metadata-bag update performed by the third categorization block (a
helper for stating lemmas). -/
def contractAnnotate (to_address : String) (d : RawData) : RawData :=
  match known_contracts.lookup to_address with
  | some info =>
    (d.set "contract_name" (RawVal.str info.1)).set "contract_type" (RawVal.str info.2)
  | none => d

/-- A Python Optional[str] stored into a dict slot. -/
def RawVal.ofOptStr : Option String → RawVal
  | some s => RawVal.str s
  | none => RawVal.null

/-- Embedding of DataCategorizer.convert_internal_to_transaction.  The
Transaction constructor's __post_init__ normalization is applied on top of
the field assignments, as in the source.  The defensive except branch of
the source is unreachable for well-typed records, so the conversion always
succeeds. -/
def convert_internal_to_transaction (internal_tx : InternalTransaction) :
    Option Transaction :=
  some (Transaction.postInit
    { hash := internal_tx.hash
      block_number := internal_tx.block_number
      timestamp := internal_tx.timestamp
      from_address := internal_tx.from_address
      to_address := internal_tx.to_address
      value := internal_tx.value
      gas_used := internal_tx.gas_used
      gas_price := 0
      transaction_fee := 0
      status := if internal_tx.is_error then TransactionStatus.failed
                else TransactionStatus.success
      transaction_type := TransactionType.internalTransfer
      nonce := 0
      transaction_index := 0
      raw_data :=
        (RawData.empty.set "internal" (RawVal.bool true)).set "error_code"
          (RawVal.ofOptStr internal_tx.error_code) })

/-- Embedding of DataCategorizer.convert_token_transfer_to_transaction.
The current time (datetime.now()) is threaded in as the parameter now; a
Python datetime is always truthy, so the source's
`token_transfer.timestamp or datetime.now()` is the getD default.  The
token id test `if token_transfer.token_id` is Python truthiness: present
and non-empty. -/
def convert_token_transfer_to_transaction (now : Nat)
    (token_transfer : TokenTransfer) : Option Transaction :=
  let tx_type :=
    match token_transfer.token_id with
    | some s => if s.isEmpty then TransactionType.erc20Transfer
                else TransactionType.erc721Transfer
    | none => TransactionType.erc20Transfer
  some (Transaction.postInit
    { hash := token_transfer.transaction_hash
      block_number := token_transfer.block_number
      timestamp := token_transfer.timestamp.getD now
      from_address := token_transfer.from_address
      to_address := token_transfer.to_address
      value := token_transfer.value
      gas_used := 0
      gas_price := 0
      transaction_fee := 0
      status := TransactionStatus.success
      transaction_type := tx_type
      nonce := 0
      transaction_index := 0
      contract_address := some token_transfer.contract_address
      token_symbol := token_transfer.token_symbol
      token_name := token_transfer.token_name
      token_decimals := token_transfer.token_decimals
      token_id := token_transfer.token_id
      raw_data := RawData.empty.set "token_transfer" (RawVal.bool true) })

/-- Body of the pagination while loop shared verbatim by
TransactionProcessor._fetch_normal_transactions,
_fetch_internal_transactions and _fetch_token_transfers.  The client call
is abstracted as fetch page offset; an exception raised by the client is
the error case of the result and is caught, ending the loop with the
records accumulated so far.  The second component counts how many client
calls were made.  The loop is driven by fuel; every iteration either
stops or appends a non-empty page, so any fuel larger than the number of
possible iterations (at most max_transactions, see fetch_paginated) is
enough. -/
def fetchPagesGo {α : Type} (fetch : Nat → Nat → Except String (List α))
    (max_transactions offset : Nat) : Nat → Nat → List α → List α × Nat
  | 0, _, acc => (acc, 0)
  | fuel + 1, page, acc =>
    if acc.length < max_transactions then
      match fetch page offset with
      | Except.error _ => (acc, 1)
      | Except.ok txs =>
        if txs.isEmpty then (acc, 1)
        else
          if txs.length < offset then (acc ++ txs, 1)
          else
            let r := fetchPagesGo fetch max_transactions offset fuel (page + 1) (acc ++ txs)
            (r.1, r.2 + 1)
    else (acc, 0)

/-- Embedding of the paginated fetch helper: page starts at 1, the page
size is min(1000, max_transactions), and the accumulated records are
truncated to max_transactions at the end. -/
def fetch_paginated {α : Type} (fetch : Nat → Nat → Except String (List α))
    (max_transactions : Nat) : List α × Nat :=
  let offset := min 1000 max_transactions
  let r := fetchPagesGo fetch max_transactions offset (max_transactions + 1) 1 []
  (r.1.take max_transactions, r.2)

/-- Modelled from the spec: the fetchPaginated algorithm exactly as the
specification words it ("loop: call source.fetch; if empty result stop;
append; if returned count < pageSize stop; else page += 1; continue while
accumulator size < maxTransactions"), that is, with the accumulator-size
check at the bottom of the loop.  Written only to be compared with the
source-derived fetch_paginated in claim C2. -/
def fetchPagesSpecGo {α : Type} (fetch : Nat → Nat → Except String (List α))
    (max_transactions offset : Nat) : Nat → Nat → List α → List α × Nat
  | 0, _, acc => (acc, 0)
  | fuel + 1, page, acc =>
    match fetch page offset with
    | Except.error _ => (acc, 1)
    | Except.ok txs =>
      if txs.isEmpty then (acc, 1)
      else
        if txs.length < offset then (acc ++ txs, 1)
        else
          if (acc ++ txs).length < max_transactions then
            let r := fetchPagesSpecGo fetch max_transactions offset fuel (page + 1) (acc ++ txs)
            (r.1, r.2 + 1)
          else (acc ++ txs, 1)

/-- Modelled from the spec: wrapper for fetchPagesSpecGo with page = 1,
pageSize = min(1000, maxTransactions) and final truncation. -/
def fetch_paginated_spec {α : Type} (fetch : Nat → Nat → Except String (List α))
    (max_transactions : Nat) : List α × Nat :=
  let offset := min 1000 max_transactions
  let r := fetchPagesSpecGo fetch max_transactions offset (max_transactions + 1) 1 []
  (r.1.take max_transactions, r.2)

/-- Error policy of EtherscanClient.get_normal_transactions: the request
and row parsing are abstracted as an already-produced response; a
transport error is swallowed into an empty list. -/
def get_normal_transactions (response : Except String (List Transaction)) :
    Except String (List Transaction) :=
  match response with
  | Except.ok txs => Except.ok txs
  | Except.error _ => Except.ok []

/-- Error policy of EtherscanClient.get_internal_transactions: a transport
error is swallowed into an empty list. -/
def get_internal_transactions (response : Except String (List InternalTransaction)) :
    Except String (List InternalTransaction) :=
  match response with
  | Except.ok txs => Except.ok txs
  | Except.error _ => Except.ok []

/-- Error policy of EtherscanClient.get_token_transfers: a transport error
is re-raised to the caller. -/
def get_token_transfers (response : Except String (List TokenTransfer)) :
    Except String (List TokenTransfer) :=
  match response with
  | Except.ok transfers => Except.ok transfers
  | Except.error e => Except.error e

/-- The comparison used for `all_transactions.sort(key=lambda x:
x.timestamp, reverse=True)`: a stable sort placing larger timestamps
first. -/
def tsDesc (a b : Transaction) : Bool := b.timestamp ≤ a.timestamp

/-- Embedding of TransactionProcessor.process_wallet_transactions.  The
three branches run through the shared pagination helper, which already
catches every client error, so each branch always yields a list and the
isinstance(result, Exception) arm of the gather loop never fires.  The
address and block range are constant across all calls of one run and are
absorbed into the three fetch closures; datetime.now() used by token
conversion is threaded in as now.  Conversion failures are dropped
(filterMap), the merged list is sorted by timestamp descending with a
stable sort, truncated to max_transactions, and categorized. -/
def process_wallet_transactions
    (fetchN : Nat → Nat → Except String (List Transaction))
    (fetchI : Nat → Nat → Except String (List InternalTransaction))
    (fetchT : Nat → Nat → Except String (List TokenTransfer))
    (max_transactions : Nat) (now : Nat) : List Transaction :=
  let normal_txs := (fetch_paginated fetchN max_transactions).1
  let internal_txs := (fetch_paginated fetchI max_transactions).1
  let token_transfers := (fetch_paginated fetchT max_transactions).1
  let all_transactions :=
    normal_txs ++ internal_txs.filterMap convert_internal_to_transaction
      ++ token_transfers.filterMap (convert_token_transfer_to_transaction now)
  let sorted := all_transactions.mergeSort tsDesc
  let limited := sorted.take max_transactions
  categorize_transactions limited

/-- Page source returning pages of 1000, 1000 and 500 records (claim C2,
first example). -/
def pagesA : Nat → Nat → Except String (List Unit) := fun page _ =>
  if page ≤ 2 then Except.ok (List.replicate 1000 ())
  else if page = 3 then Except.ok (List.replicate 500 ())
  else Except.ok []

/-- Page source with unbounded pages of 1000 records (claim C2, second
example). -/
def pagesB : Nat → Nat → Except String (List Unit) := fun _ _ =>
  Except.ok (List.replicate 1000 ())

/-- A plain successful ETH transfer fixture. -/
def txEx : Transaction :=
  { hash := "0xaaa"
    block_number := 100
    timestamp := 1000
    from_address := "0xfrom"
    to_address := "0xto"
    value := 1
    gas_used := 21000
    gas_price := 20
    transaction_fee := 420000
    status := TransactionStatus.success
    transaction_type := TransactionType.ethTransfer
    nonce := 1
    transaction_index := 0 }

/-- A second fixture with a later timestamp. -/
def txEx2 : Transaction :=
  { txEx with hash := "0xbbb", timestamp := 2000 }

/-- A token transfer fixture. -/
def tokEx : TokenTransfer :=
  { contract_address := "0xc0ffee"
    from_address := "0xfrom"
    to_address := "0xto"
    value := 10
    transaction_hash := "0xccc"
    block_number := 101
    timestamp := some 3000 }

/-- An internal transaction record with mixed-case addresses (claim C7
counterexample input). -/
def rEx : InternalTransaction :=
  { hash := "0xddd"
    from_address := "0xAB"
    to_address := "0xCD"
    value := 2
    gas_used := 5000
    block_number := 102
    timestamp := 4000
    is_error := true
    error_code := some "revert" }

/-- A failed transaction carrying the totalSupply() selector (claim C10
counterexample input). -/
def txF : Transaction :=
  { txEx with status := TransactionStatus.failed, input_data := some "0x18160ddd" }

/-- A failed transaction carrying the transfer(address,uint256) selector
(claim C5 witness input). -/
def txW : Transaction :=
  { txEx with status := TransactionStatus.failed, input_data := some "0xa9059cbb000000" }

/-- Fetch fixtures used to instantiate the processor-level theorems. -/
def fetchN_one : Nat → Nat → Except String (List Transaction) := fun _ _ =>
  Except.ok [txEx]

def fetchN_two : Nat → Nat → Except String (List Transaction) := fun _ _ =>
  Except.ok [txEx, txEx2]

def fetchI_empty : Nat → Nat → Except String (List InternalTransaction) := fun _ _ =>
  Except.ok []

def fetchI_err : Nat → Nat → Except String (List InternalTransaction) := fun _ _ =>
  Except.error "transport error"

def fetchT_empty : Nat → Nat → Except String (List TokenTransfer) := fun _ _ =>
  Except.ok []

def fetchT_err : Nat → Nat → Except String (List TokenTransfer) := fun _ _ =>
  Except.error "transport error"

def fetchT_one : Nat → Nat → Except String (List TokenTransfer) := fun _ _ =>
  Except.ok [tokEx]

/-- A successful transaction carrying the totalSupply() selector (claim
C10 witness input). -/
def txG : Transaction :=
  { txEx with input_data := some "0x18160ddd" }

/-- The unified transaction produced from the internal record rEx. -/
def tIntEx : Transaction :=
  match convert_internal_to_transaction rEx with
  | some t => t
  | none => txEx

/-- A token transfer fixture carrying an NFT token id. -/
def tokNft : TokenTransfer :=
  { tokEx with token_id := some "7" }

/-- The unified transaction produced from the token record tokNft at
current time 500. -/
def tTokEx : Transaction :=
  match convert_token_transfer_to_transaction 500 tokNft with
  | some t => t
  | none => txEx

theorem applyMethodRule_char (v : Transaction) :
    applyMethodRule v =
      { v with
        method_id := (selectorOf v).or v.method_id
        transaction_type := typeFromSelector v } := by
  obtain hv | ⟨s, hv⟩ : v.input_data = none ∨ ∃ s, v.input_data = some s := by
    cases v.input_data
    · exact Or.inl rfl
    · exact Or.inr ⟨_, rfl⟩
  · have hs : selectorOf v = none := by unfold selectorOf; rw [hv]
    have ht : typeFromSelector v = v.transaction_type := by unfold typeFromSelector; rw [hs]
    rw [hs, ht]
    unfold applyMethodRule
    conv_lhs => rw [hv]
    rfl
  · by_cases h2 : s.length > 2
    · by_cases h3 : (method_signatures.lookup (s.take 10)).isSome
      · have hs : selectorOf v = some (s.take 10) := by
          unfold selectorOf; rw [hv]; simp only [if_pos h2, if_pos h3]
        rw [hs]
        unfold typeFromSelector
        rw [hs]
        unfold applyMethodRule
        conv_lhs => rw [hv]
        simp only [if_pos h2, if_pos h3]
        by_cases h4 : s.take 10 = "0xa9059cbb" ∨ s.take 10 = "0x23b872dd"
        · simp only [if_pos h4]
          rw [hv]
          rfl
        · simp only [if_neg h4]
          by_cases h5 : s.take 10 = "0x095ea7b3"
          · simp only [if_pos h5]
            rw [hv]
            rfl
          · simp only [if_neg h5]
            rw [hv]
            rfl
      · have hs : selectorOf v = none := by
          unfold selectorOf; rw [hv]; simp only [if_pos h2, if_neg h3]
        have ht : typeFromSelector v = v.transaction_type := by
          unfold typeFromSelector; rw [hs]
        rw [hs, ht]
        unfold applyMethodRule
        conv_lhs => rw [hv]
        simp only [if_pos h2, if_neg h3]
        rfl
    · have hs : selectorOf v = none := by
        unfold selectorOf; rw [hv]; simp only [if_neg h2]
      have ht : typeFromSelector v = v.transaction_type := by
        unfold typeFromSelector; rw [hs]
      rw [hs, ht]
      unfold applyMethodRule
      conv_lhs => rw [hv]
      simp only [if_neg h2]
      rfl

theorem applyFailedRule_char (v : Transaction) :
    applyFailedRule v =
      { v with
        transaction_type :=
          if v.status = TransactionStatus.failed then TransactionType.failedTransaction
          else v.transaction_type } := by
  unfold applyFailedRule
  by_cases h : v.status = TransactionStatus.failed
  · simp only [if_pos h]
  · simp only [if_neg h]

theorem applyContractRule_char (v : Transaction) :
    applyContractRule v = { v with raw_data := contractAnnotate v.to_address v.raw_data } := by
  unfold applyContractRule contractAnnotate
  cases h : known_contracts.lookup v.to_address with
  | none => rfl
  | some info => rfl

theorem cat_char (v : Transaction) :
    categorize_single_transaction v =
      { v with
        method_id := (selectorOf v).or v.method_id
        transaction_type :=
          if v.status = TransactionStatus.failed then TransactionType.failedTransaction
          else typeFromSelector v
        raw_data := contractAnnotate v.to_address v.raw_data } := by
  unfold categorize_single_transaction
  rw [applyMethodRule_char, applyFailedRule_char, applyContractRule_char]

theorem cat_timestamp (v : Transaction) :
    (categorize_single_transaction v).timestamp = v.timestamp := by
  rw [cat_char]

theorem cat_status (v : Transaction) :
    (categorize_single_transaction v).status = v.status := by
  rw [cat_char]

theorem cat_to_address (v : Transaction) :
    (categorize_single_transaction v).to_address = v.to_address := by
  rw [cat_char]

theorem selectorOf_cat (v : Transaction) :
    selectorOf (categorize_single_transaction v) = selectorOf v := by
  rw [cat_char]
  rfl

theorem contractAnnotate_idem (a : String) (d : RawData) :
    contractAnnotate a (contractAnnotate a d) = contractAnnotate a d := by
  unfold contractAnnotate
  cases h : known_contracts.lookup a with
  | none => rfl
  | some info =>
    funext q
    simp only [RawData.set]
    split_ifs <;> rfl

theorem typeFromSelector_cat (v : Transaction)
    (h : ¬ v.status = TransactionStatus.failed) :
    typeFromSelector (categorize_single_transaction v) = typeFromSelector v := by
  unfold typeFromSelector
  rw [selectorOf_cat]
  cases hs : selectorOf v with
  | none =>
    show (categorize_single_transaction v).transaction_type = v.transaction_type
    rw [cat_char]
    simp only [if_neg h]
    unfold typeFromSelector
    rw [hs]
  | some mid =>
    by_cases h4 : mid = "0xa9059cbb" ∨ mid = "0x23b872dd"
    · simp only [if_pos h4]
    · simp only [if_neg h4]
      by_cases h5 : mid = "0x095ea7b3"
      · simp only [if_pos h5]
      · simp only [if_neg h5]
        show (categorize_single_transaction v).transaction_type = v.transaction_type
        rw [cat_char]
        simp only [if_neg h]
        unfold typeFromSelector
        rw [hs]
        simp only [if_neg h4, if_neg h5]

theorem selectorOf_eq (v : Transaction) (s : String) (h1 : v.input_data = some s)
    (h2 : s.length > 2) (h3 : (method_signatures.lookup (s.take 10)).isSome) :
    selectorOf v = some (s.take 10) := by
  unfold selectorOf
  rw [h1]
  simp only [if_pos h2, if_pos h3]

/-- C6: CategorizeOne is idempotent: applying the categorization rules a
second time changes no field, the metadata bag included. -/
theorem c6_categorize_idempotent (tx : Transaction) :
    categorize_single_transaction (categorize_single_transaction tx) =
      categorize_single_transaction tx := by
  conv_lhs => rw [cat_char (categorize_single_transaction tx)]
  refine Transaction.ext rfl rfl rfl rfl rfl rfl rfl rfl rfl rfl ?_ rfl rfl rfl rfl
    rfl rfl rfl rfl ?_ ?_
  · rw [cat_status]
    by_cases hf : tx.status = TransactionStatus.failed
    · rw [if_pos hf, cat_char]
      simp only [if_pos hf]
    · rw [if_neg hf, typeFromSelector_cat tx hf, cat_char]
      simp only [if_neg hf]
  · rw [selectorOf_cat, cat_char]
    cases hsel : selectorOf tx <;> rfl
  · rw [cat_to_address, cat_char]
    exact contractAnnotate_idem _ _

/-- C5: a transaction with Failed status whose input data begins with a
recognized transfer selector ends categorization with the
failed-transaction type and with the selector recorded as method_id. -/
theorem c5_failed_with_transfer_selector (tx : Transaction) (s : String)
    (h1 : tx.input_data = some s) (h2 : s.length > 2)
    (h3 : s.take 10 = "0xa9059cbb" ∨ s.take 10 = "0x23b872dd")
    (h4 : tx.status = TransactionStatus.failed) :
    (categorize_single_transaction tx).transaction_type = TransactionType.failedTransaction ∧
    (categorize_single_transaction tx).method_id = some (s.take 10) := by
  have hlk : (method_signatures.lookup (s.take 10)).isSome := by
    rcases h3 with h | h <;> rw [h] <;> decide
  have hs := selectorOf_eq tx s h1 h2 hlk
  constructor
  · rw [cat_char]
    simp only [if_pos h4]
  · rw [cat_char]
    simp only [hs]
    rfl

/-- Witness for C5 at the concrete failed transaction txW. -/
theorem c5_witness :
    (categorize_single_transaction txW).transaction_type = TransactionType.failedTransaction ∧
    (categorize_single_transaction txW).method_id = some ("0xa9059cbb000000".take 10) :=
  c5_failed_with_transfer_selector txW "0xa9059cbb000000" rfl (by decide)
    (Or.inl (by decide)) rfl

/-- C10 counterexample: the failed transaction txF carries the
totalSupply() selector; categorization records the method id but does
change the transaction type (to the failed-transaction type), refuting
the claim that the type is left unchanged for every transaction with such
a selector. -/
theorem c10_counterexample :
    (categorize_single_transaction txF).method_id = some "0x18160ddd" ∧
    txF.transaction_type = TransactionType.ethTransfer ∧
    (categorize_single_transaction txF).transaction_type = TransactionType.failedTransaction := by
  refine ⟨by decide, by decide, by decide⟩

/-- C10 (amended): for input data beginning with a known selector that is
neither a transfer selector nor the approve selector (totalSupply() or
balanceOf(address)), categorization records the selector as method_id
and, provided the status is not Failed, leaves the transaction type
unchanged. -/
theorem c10_other_selector_sets_method_id (tx : Transaction) (s : String)
    (h1 : tx.input_data = some s) (h2 : s.length > 2)
    (h3 : s.take 10 = "0x18160ddd" ∨ s.take 10 = "0x70a08231")
    (h4 : ¬ tx.status = TransactionStatus.failed) :
    (categorize_single_transaction tx).method_id = some (s.take 10) ∧
    (categorize_single_transaction tx).transaction_type = tx.transaction_type := by
  have hlk : (method_signatures.lookup (s.take 10)).isSome := by
    rcases h3 with h | h <;> rw [h] <;> decide
  have hs := selectorOf_eq tx s h1 h2 hlk
  have hne1 : ¬ (s.take 10 = "0xa9059cbb" ∨ s.take 10 = "0x23b872dd") := by
    rcases h3 with h | h <;> rw [h] <;> decide
  have hne2 : ¬ s.take 10 = "0x095ea7b3" := by
    rcases h3 with h | h <;> rw [h] <;> decide
  constructor
  · rw [cat_char]
    simp only [hs]
    rfl
  · rw [cat_char]
    simp only [if_neg h4]
    unfold typeFromSelector
    rw [hs]
    simp only [if_neg hne1, if_neg hne2]

/-- Witness for C10's amended statement at the concrete transaction txG. -/
theorem c10_witness :
    (categorize_single_transaction txG).method_id = some ("0x18160ddd".take 10) ∧
    (categorize_single_transaction txG).transaction_type = txG.transaction_type :=
  c10_other_selector_sets_method_id txG "0x18160ddd" rfl (by decide)
    (Or.inl (by decide)) (by decide)

/-- C7 counterexample: converting the internal record rEx, whose sender
address contains upper-case characters, produces a transaction whose
sender address is the lowercased form, not a verbatim copy of the
record's field. -/
theorem c7_counterexample :
    (convert_internal_to_transaction rEx).map Transaction.from_address = some "0xab" ∧
    rEx.from_address = "0xAB" ∧
    (convert_internal_to_transaction rEx).map Transaction.from_address ≠
      some rEx.from_address := by
  refine ⟨rfl, rfl, by decide⟩

/-- C7 (amended): a successfully converted internal record yields a
unified transaction with status Failed iff the record is an error,
type InternalTransfer, zero gas price, fee, nonce and index, a metadata
bag holding the internal flag and the record's error code, and all other
fields copied from the record with the from and to addresses passed
through the lowercasing checksum normalization of the Transaction
constructor. -/
theorem c7_convert_internal (r : InternalTransaction) (t : Transaction)
    (h : convert_internal_to_transaction r = some t) :
    t.status = (if r.is_error then TransactionStatus.failed else TransactionStatus.success) ∧
    t.transaction_type = TransactionType.internalTransfer ∧
    t.gas_price = 0 ∧
    t.transaction_fee = 0 ∧
    t.nonce = 0 ∧
    t.transaction_index = 0 ∧
    t.raw_data "internal" = some (RawVal.bool true) ∧
    t.raw_data "error_code" = some (RawVal.ofOptStr r.error_code) ∧
    t.hash = r.hash ∧
    t.block_number = r.block_number ∧
    t.timestamp = r.timestamp ∧
    t.from_address = checksum_address r.from_address ∧
    t.to_address = checksum_address r.to_address ∧
    t.value = r.value ∧
    t.gas_used = r.gas_used := by
  unfold convert_internal_to_transaction at h
  obtain rfl := Option.some.inj h
  exact ⟨rfl, rfl, rfl, rfl, rfl, rfl, rfl, rfl, rfl, rfl, rfl, rfl, rfl, rfl, rfl⟩

/-- Witness for C7's amended statement at the concrete record rEx. -/
theorem c7_witness :
    tIntEx.status =
      (if rEx.is_error then TransactionStatus.failed else TransactionStatus.success) ∧
    tIntEx.transaction_type = TransactionType.internalTransfer ∧
    tIntEx.gas_price = 0 ∧
    tIntEx.transaction_fee = 0 ∧
    tIntEx.nonce = 0 ∧
    tIntEx.transaction_index = 0 ∧
    tIntEx.raw_data "internal" = some (RawVal.bool true) ∧
    tIntEx.raw_data "error_code" = some (RawVal.ofOptStr rEx.error_code) ∧
    tIntEx.hash = rEx.hash ∧
    tIntEx.block_number = rEx.block_number ∧
    tIntEx.timestamp = rEx.timestamp ∧
    tIntEx.from_address = checksum_address rEx.from_address ∧
    tIntEx.to_address = checksum_address rEx.to_address ∧
    tIntEx.value = rEx.value ∧
    tIntEx.gas_used = rEx.gas_used :=
  c7_convert_internal rEx tIntEx rfl

/-- C8: a successfully converted token record yields a unified
transaction typed Erc721Transfer exactly when the token id is present
and non-empty and Erc20Transfer otherwise, with status Success, zero gas
used, gas price and fee, and a timestamp equal to the record's timestamp
when present and to the current time otherwise. -/
theorem c8_convert_token (now : Nat) (r : TokenTransfer) (t : Transaction)
    (h : convert_token_transfer_to_transaction now r = some t) :
    (∀ s, r.token_id = some s → s ≠ "" →
      t.transaction_type = TransactionType.erc721Transfer) ∧
    ((r.token_id = none ∨ r.token_id = some "") →
      t.transaction_type = TransactionType.erc20Transfer) ∧
    t.status = TransactionStatus.success ∧
    t.gas_used = 0 ∧
    t.gas_price = 0 ∧
    t.transaction_fee = 0 ∧
    (∀ ts, r.timestamp = some ts → t.timestamp = ts) ∧
    (r.timestamp = none → t.timestamp = now) := by
  unfold convert_token_transfer_to_transaction at h
  obtain rfl := Option.some.inj h
  refine ⟨?_, ?_, rfl, rfl, rfl, rfl, ?_, ?_⟩
  · intro s hs hne
    show (match r.token_id with
      | some s => if s.isEmpty then TransactionType.erc20Transfer
                  else TransactionType.erc721Transfer
      | none => TransactionType.erc20Transfer) = TransactionType.erc721Transfer
    rw [hs]
    have : s.isEmpty = false := by
      cases hb : s.isEmpty
      · rfl
      · exact absurd ((String.isEmpty_iff s).mp hb) hne
    simp only [this]
    rfl
  · intro hid
    show (match r.token_id with
      | some s => if s.isEmpty then TransactionType.erc20Transfer
                  else TransactionType.erc721Transfer
      | none => TransactionType.erc20Transfer) = TransactionType.erc20Transfer
    rcases hid with hid | hid <;> rw [hid]
    rfl
  · intro ts hts
    show r.timestamp.getD now = ts
    rw [hts]
    rfl
  · intro hts
    show r.timestamp.getD now = now
    rw [hts]
    rfl

/-- Witness for C8 at the NFT token record tokNft with current time 500. -/
theorem c8_witness :
    (∀ s, tokNft.token_id = some s → s ≠ "" →
      tTokEx.transaction_type = TransactionType.erc721Transfer) ∧
    ((tokNft.token_id = none ∨ tokNft.token_id = some "") →
      tTokEx.transaction_type = TransactionType.erc20Transfer) ∧
    tTokEx.status = TransactionStatus.success ∧
    tTokEx.gas_used = 0 ∧
    tTokEx.gas_price = 0 ∧
    tTokEx.transaction_fee = 0 ∧
    (∀ ts, tokNft.timestamp = some ts → tTokEx.timestamp = ts) ∧
    (tokNft.timestamp = none → tTokEx.timestamp = 500) :=
  c8_convert_token 500 tokNft tTokEx rfl

theorem fetchPagesGo_succ {α : Type} (fetch : Nat → Nat → Except String (List α))
    (m o fuel page : Nat) (acc : List α) :
    fetchPagesGo fetch m o (fuel + 1) page acc =
      (if acc.length < m then
        match fetch page o with
        | Except.error _ => (acc, 1)
        | Except.ok txs =>
          if txs.isEmpty then (acc, 1)
          else
            if txs.length < o then (acc ++ txs, 1)
            else
              let r := fetchPagesGo fetch m o fuel (page + 1) (acc ++ txs)
              (r.1, r.2 + 1)
      else (acc, 0)) := rfl

theorem fetchPagesSpecGo_succ {α : Type} (fetch : Nat → Nat → Except String (List α))
    (m o fuel page : Nat) (acc : List α) :
    fetchPagesSpecGo fetch m o (fuel + 1) page acc =
      (match fetch page o with
        | Except.error _ => (acc, 1)
        | Except.ok txs =>
          if txs.isEmpty then (acc, 1)
          else
            if txs.length < o then (acc ++ txs, 1)
            else
              if (acc ++ txs).length < m then
                let r := fetchPagesSpecGo fetch m o fuel (page + 1) (acc ++ txs)
                (r.1, r.2 + 1)
              else (acc ++ txs, 1)) := rfl

theorem fetchPagesGo_stop {α : Type} (fetch : Nat → Nat → Except String (List α))
    (m o fuel page : Nat) (acc : List α) (h : ¬ acc.length < m) :
    fetchPagesGo fetch m o fuel page acc = (acc, 0) := by
  cases fuel with
  | zero => rfl
  | succ f => rw [fetchPagesGo_succ]; simp only [if_neg h]

theorem fetchPagesGo_eq_spec {α : Type} (fetch : Nat → Nat → Except String (List α))
    (m o : Nat) :
    ∀ (fuel page : Nat) (acc : List α), acc.length < m →
      m - acc.length ≤ fuel + 1 →
      fetchPagesGo fetch m o (fuel + 1) page acc =
        fetchPagesSpecGo fetch m o (fuel + 1) page acc := by
  intro fuel
  induction fuel with
  | zero =>
    intro page acc hlt hb
    rw [fetchPagesGo_succ, fetchPagesSpecGo_succ]
    simp only [if_pos hlt]
    cases hfr : fetch page o with
    | error e => rfl
    | ok txs =>
      by_cases hemp : txs.isEmpty
      · simp only [if_pos hemp]
      · simp only [if_neg hemp]
        by_cases hlen : txs.length < o
        · simp only [if_pos hlen]
        · simp only [if_neg hlen]
          have htx : 0 < txs.length := by
            cases txs
            · simp at hemp
            · simp
          have hge : ¬ (acc ++ txs).length < m := by
            rw [List.length_append]
            omega
          simp only [if_neg hge]
          rfl
  | succ f ih =>
    intro page acc hlt hb
    rw [fetchPagesGo_succ, fetchPagesSpecGo_succ]
    simp only [if_pos hlt]
    cases hfr : fetch page o with
    | error e => rfl
    | ok txs =>
      by_cases hemp : txs.isEmpty
      · simp only [if_pos hemp]
      · simp only [if_neg hemp]
        by_cases hlen : txs.length < o
        · simp only [if_pos hlen]
        · simp only [if_neg hlen]
          have htx : 0 < txs.length := by
            cases txs
            · simp at hemp
            · simp
          by_cases h2 : (acc ++ txs).length < m
          · simp only [if_pos h2]
            have hb2 : m - (acc ++ txs).length ≤ f + 1 := by
              rw [List.length_append]
              omega
            rw [ih (page + 1) (acc ++ txs) h2 hb2]
          · simp only [if_neg h2]
            rw [fetchPagesGo_stop fetch m o (f + 1) (page + 1) (acc ++ txs) h2]

/-- C2: the source pagination helper computes exactly the algorithm the
specification describes (for any positive transaction limit), and on the
two example page sequences it returns 2500 records in 3 calls and 1500
records in 2 calls respectively. -/
theorem fetchPagesGo_step_full {α : Type} (fetch : Nat → Nat → Except String (List α))
    (m o fuel page : Nat) (acc txs : List α)
    (hacc : acc.length < m) (hfr : fetch page o = Except.ok txs)
    (hne : txs.isEmpty = false) (hlen : ¬ txs.length < o) :
    fetchPagesGo fetch m o (fuel + 1) page acc =
      ((fetchPagesGo fetch m o fuel (page + 1) (acc ++ txs)).1,
       (fetchPagesGo fetch m o fuel (page + 1) (acc ++ txs)).2 + 1) := by
  rw [fetchPagesGo_succ, if_pos hacc, hfr]
  simp only [hne, Bool.false_eq_true, if_false, if_neg hlen]

theorem fetchPagesGo_step_last {α : Type} (fetch : Nat → Nat → Except String (List α))
    (m o fuel page : Nat) (acc txs : List α)
    (hacc : acc.length < m) (hfr : fetch page o = Except.ok txs)
    (hne : txs.isEmpty = false) (hlen : txs.length < o) :
    fetchPagesGo fetch m o (fuel + 1) page acc = (acc ++ txs, 1) := by
  rw [fetchPagesGo_succ, if_pos hacc, hfr]
  simp only [hne, Bool.false_eq_true, if_false, if_pos hlen]

theorem pagesA_go_eval :
    fetchPagesGo pagesA 10000 1000 (10000 + 1) 1 [] =
      ((([] ++ List.replicate 1000 ()) ++ List.replicate 1000 ()) ++ List.replicate 500 (),
       3) := by
  rw [fetchPagesGo_step_full pagesA 10000 1000 10000 1 [] (List.replicate 1000 ())
    (by decide) rfl rfl
    (by rw [List.length_replicate]; decide)]
  rw [fetchPagesGo_step_full pagesA 10000 1000 9999 2 ([] ++ List.replicate 1000 ())
    (List.replicate 1000 ())
    (by rw [List.length_append, List.length_nil, List.length_replicate]; decide) rfl rfl
    (by rw [List.length_replicate]; decide)]
  rw [fetchPagesGo_step_last pagesA 10000 1000 9998 3
    (([] ++ List.replicate 1000 ()) ++ List.replicate 1000 ()) (List.replicate 500 ())
    (by rw [List.length_append, List.length_append, List.length_nil,
        List.length_replicate]; decide) rfl rfl
    (by rw [List.length_replicate]; decide)]

theorem pagesB_go_eval :
    fetchPagesGo pagesB 1500 1000 (1500 + 1) 1 [] =
      (([] ++ List.replicate 1000 ()) ++ List.replicate 1000 (), 2) := by
  rw [fetchPagesGo_step_full pagesB 1500 1000 1500 1 [] (List.replicate 1000 ())
    (by decide) rfl rfl
    (by rw [List.length_replicate]; decide)]
  rw [fetchPagesGo_step_full pagesB 1500 1000 1499 2 ([] ++ List.replicate 1000 ())
    (List.replicate 1000 ())
    (by rw [List.length_append, List.length_nil, List.length_replicate]; decide) rfl rfl
    (by rw [List.length_replicate]; decide)]
  rw [fetchPagesGo_stop pagesB 1500 1000 1499 3
    (([] ++ List.replicate 1000 ()) ++ List.replicate 1000 ())
    (by rw [List.length_append, List.length_append, List.length_nil,
        List.length_replicate]; decide)]

/-- C2: the source pagination helper computes exactly the algorithm the
specification describes (for any positive transaction limit), and on the
two example page sequences it returns 2500 records in 3 calls and 1500
records in 2 calls respectively. -/
theorem c2_fetch_paginated :
    (∀ (α : Type) (fetch : Nat → Nat → Except String (List α)) (max_transactions : Nat),
       0 < max_transactions →
       fetch_paginated fetch max_transactions = fetch_paginated_spec fetch max_transactions) ∧
    ((fetch_paginated pagesA 10000).1.length = 2500 ∧ (fetch_paginated pagesA 10000).2 = 3) ∧
    ((fetch_paginated pagesB 1500).1.length = 1500 ∧ (fetch_paginated pagesB 1500).2 = 2) := by
  have hA : fetch_paginated pagesA 10000 =
      ((fetchPagesGo pagesA 10000 1000 (10000 + 1) 1 []).1.take 10000,
       (fetchPagesGo pagesA 10000 1000 (10000 + 1) 1 []).2) := rfl
  have hB : fetch_paginated pagesB 1500 =
      ((fetchPagesGo pagesB 1500 1000 (1500 + 1) 1 []).1.take 1500,
       (fetchPagesGo pagesB 1500 1000 (1500 + 1) 1 []).2) := rfl
  refine ⟨?_, ⟨?_, ?_⟩, ⟨?_, ?_⟩⟩
  · intro α fetch m hm
    simp only [fetch_paginated, fetch_paginated_spec]
    have h := fetchPagesGo_eq_spec fetch m (min 1000 m) m 1 []
      (by simpa using hm) (by omega)
    rw [h]
  · rw [hA, pagesA_go_eval]
    show (((([] ++ List.replicate 1000 ()) ++ List.replicate 1000 ()) ++
        List.replicate 500 ()).take 10000).length = 2500
    rw [List.length_take, List.length_append, List.length_append, List.length_append,
      List.length_nil, List.length_replicate, List.length_replicate]
    omega
  · rw [hA, pagesA_go_eval]
  · rw [hB, pagesB_go_eval]
    show ((([] ++ List.replicate 1000 ()) ++ List.replicate 1000 ()).take 1500).length = 1500
    rw [List.length_take, List.length_append, List.length_append, List.length_nil,
      List.length_replicate]
    omega
  · rw [hB, pagesB_go_eval]

/-- Witness for C2's universally quantified refinement conjunct at a
concrete source and limit. -/
theorem c2_witness :
    fetch_paginated pagesB 1500 = fetch_paginated_spec pagesB 1500 :=
  c2_fetch_paginated.1 Unit pagesB 1500 (by decide)

theorem fetch_paginated_error {α : Type} (fetch : Nat → Nat → Except String (List α))
    (e : String) (m : Nat) (h : ∀ page offset, fetch page offset = Except.error e) :
    (fetch_paginated fetch m).1 = [] := by
  have hgo : fetchPagesGo fetch m (min 1000 m) (m + 1) 1 [] =
      if ([] : List α).length < m then ([], 1) else ([], 0) := by
    rw [fetchPagesGo_succ]
    by_cases h0 : ([] : List α).length < m
    · rw [if_pos h0, if_pos h0, h]
    · rw [if_neg h0, if_neg h0]
  show ((fetchPagesGo fetch m (min 1000 m) (m + 1) 1 []).1).take m = []
  rw [hgo]
  by_cases h0 : ([] : List α).length < m
  · rw [if_pos h0]
    exact List.take_nil
  · rw [if_neg h0]
    exact List.take_nil

theorem fetch_paginated_ok_nil {α : Type} (fetch : Nat → Nat → Except String (List α))
    (m : Nat) (h : ∀ page offset, fetch page offset = Except.ok ([] : List α)) :
    (fetch_paginated fetch m).1 = [] := by
  have hgo : fetchPagesGo fetch m (min 1000 m) (m + 1) 1 [] =
      if ([] : List α).length < m then ([], 1) else ([], 0) := by
    rw [fetchPagesGo_succ]
    by_cases h0 : ([] : List α).length < m
    · rw [if_pos h0, if_pos h0, h]
      rfl
    · rw [if_neg h0, if_neg h0]
  show ((fetchPagesGo fetch m (min 1000 m) (m + 1) 1 []).1).take m = []
  rw [hgo]
  by_cases h0 : ([] : List α).length < m
  · rw [if_pos h0]
    exact List.take_nil
  · rw [if_neg h0]
    exact List.take_nil

theorem tsDesc_trans : ∀ (a b c : Transaction), tsDesc a b → tsDesc b c → tsDesc a c := by
  intro a b c hab hbc
  simp only [tsDesc, decide_eq_true_eq] at hab hbc ⊢
  omega

theorem tsDesc_total : ∀ (a b : Transaction), tsDesc a b || tsDesc b a := by
  intro a b
  simp only [tsDesc, Bool.or_eq_true, decide_eq_true_eq]
  omega

theorem process_pairwise
    (fetchN : Nat → Nat → Except String (List Transaction))
    (fetchI : Nat → Nat → Except String (List InternalTransaction))
    (fetchT : Nat → Nat → Except String (List TokenTransfer))
    (max_transactions now : Nat) :
    (process_wallet_transactions fetchN fetchI fetchT max_transactions now).Pairwise
      (fun a b => b.timestamp ≤ a.timestamp) := by
  simp only [process_wallet_transactions, categorize_transactions]
  rw [List.pairwise_map]
  have h1 := (List.sorted_mergeSort tsDesc_trans tsDesc_total
    ((fetch_paginated fetchN max_transactions).1 ++
      (fetch_paginated fetchI max_transactions).1.filterMap convert_internal_to_transaction ++
      (fetch_paginated fetchT max_transactions).1.filterMap
        (convert_token_transfer_to_transaction now))).take (n := max_transactions)
  refine h1.imp ?_
  intro a b hab
  simp only [tsDesc, decide_eq_true_eq] at hab
  rw [cat_timestamp, cat_timestamp]
  exact hab

/-- C3: the list returned by ProcessWalletTransactions is sorted by
timestamp in descending order; every element's timestamp is at least the
next element's. -/
theorem c3_output_sorted_desc
    (fetchN : Nat → Nat → Except String (List Transaction))
    (fetchI : Nat → Nat → Except String (List InternalTransaction))
    (fetchT : Nat → Nat → Except String (List TokenTransfer))
    (max_transactions now : Nat) (i : Nat)
    (h : i + 1 < (process_wallet_transactions fetchN fetchI fetchT max_transactions now).length) :
    ((process_wallet_transactions fetchN fetchI fetchT max_transactions now).get
        ⟨i + 1, h⟩).timestamp ≤
      ((process_wallet_transactions fetchN fetchI fetchT max_transactions now).get
        ⟨i, Nat.lt_of_succ_lt h⟩).timestamp := by
  have hp := process_pairwise fetchN fetchI fetchT max_transactions now
  have := List.pairwise_iff_getElem.mp hp i (i + 1) (Nat.lt_of_succ_lt h) h
    (Nat.lt_succ_self i)
  simpa [List.get_eq_getElem] using this

theorem c3_witness_bound :
    1 < (process_wallet_transactions fetchN_two fetchI_empty fetchT_empty 10 0).length := by
  simp only [process_wallet_transactions, categorize_transactions, List.length_map,
    List.length_take, List.length_mergeSort]
  decide

/-- Witness for C3 on a concrete two-transaction run. -/
theorem c3_witness :
    ((process_wallet_transactions fetchN_two fetchI_empty fetchT_empty 10 0).get
        ⟨1, c3_witness_bound⟩).timestamp ≤
      ((process_wallet_transactions fetchN_two fetchI_empty fetchT_empty 10 0).get
        ⟨0, Nat.lt_of_succ_lt c3_witness_bound⟩).timestamp :=
  c3_output_sorted_desc fetchN_two fetchI_empty fetchT_empty 10 0 0 c3_witness_bound

/-- C9: the returned list never exceeds the transaction limit. -/
theorem c9_limit
    (fetchN : Nat → Nat → Except String (List Transaction))
    (fetchI : Nat → Nat → Except String (List InternalTransaction))
    (fetchT : Nat → Nat → Except String (List TokenTransfer))
    (max_transactions now : Nat) (_h : 0 < max_transactions) :
    (process_wallet_transactions fetchN fetchI fetchT max_transactions now).length ≤
      max_transactions := by
  simp only [process_wallet_transactions, categorize_transactions, List.length_map,
    List.length_take]
  omega

/-- Witness for C9 on a concrete run. -/
theorem c9_witness :
    (process_wallet_transactions fetchN_one fetchI_empty fetchT_empty 10 0).length ≤ 10 :=
  c9_limit fetchN_one fetchI_empty fetchT_empty 10 0 (by decide)

/-- C4: when the internal-transaction source throws on every call,
ProcessWalletTransactions behaves exactly as if that branch contributed
no records: it returns normally the same list as with an empty internal
source; that list is, up to the sorting permutation, the categorized
normal transactions together with every convertible token transfer
whenever they fit within the limit; and it is non-empty whenever either
of the other two branches contributed records. -/
theorem c4_internal_failure_isolated
    (fetchN : Nat → Nat → Except String (List Transaction))
    (fetchI : Nat → Nat → Except String (List InternalTransaction))
    (fetchT : Nat → Nat → Except String (List TokenTransfer))
    (max_transactions now : Nat) (e : String)
    (hI : ∀ page offset, fetchI page offset = Except.error e) :
    process_wallet_transactions fetchN fetchI fetchT max_transactions now =
      process_wallet_transactions fetchN (fun _ _ => Except.ok []) fetchT
        max_transactions now ∧
    ((fetch_paginated fetchN max_transactions).1.length +
        ((fetch_paginated fetchT max_transactions).1.filterMap
          (convert_token_transfer_to_transaction now)).length ≤ max_transactions →
      (process_wallet_transactions fetchN fetchI fetchT max_transactions now).Perm
        (((fetch_paginated fetchN max_transactions).1 ++
            (fetch_paginated fetchT max_transactions).1.filterMap
              (convert_token_transfer_to_transaction now)).map
          categorize_single_transaction)) ∧
    (0 < max_transactions →
      ((fetch_paginated fetchN max_transactions).1 ≠ [] ∨
        (fetch_paginated fetchT max_transactions).1.filterMap
          (convert_token_transfer_to_transaction now) ≠ []) →
      process_wallet_transactions fetchN fetchI fetchT max_transactions now ≠ []) := by
  have hIe : (fetch_paginated fetchI max_transactions).1 = [] :=
    fetch_paginated_error fetchI e max_transactions hI
  have hIo : (fetch_paginated (fun _ _ => Except.ok ([] : List InternalTransaction))
      max_transactions).1 = [] :=
    fetch_paginated_ok_nil _ max_transactions (fun _ _ => rfl)
  refine ⟨?_, ?_, ?_⟩
  · simp only [process_wallet_transactions, hIe, hIo]
  · intro hlen
    simp only [process_wallet_transactions, hIe, List.filterMap_nil, List.append_nil,
      categorize_transactions]
    rw [List.take_of_length_le]
    · exact (List.mergeSort_perm _ _).map _
    · rw [List.length_mergeSort, List.length_append]
      exact hlen
  · intro hm hne
    simp only [process_wallet_transactions, hIe, List.filterMap_nil, List.append_nil,
      categorize_transactions]
    have hpos : 0 < (fetch_paginated fetchN max_transactions).1.length +
        ((fetch_paginated fetchT max_transactions).1.filterMap
          (convert_token_transfer_to_transaction now)).length := by
      rcases hne with hne | hne
      · have := List.length_pos.mpr hne
        omega
      · have := List.length_pos.mpr hne
        omega
    refine List.length_pos.mp ?_
    rw [List.length_map, List.length_take, List.length_mergeSort, List.length_append]
    omega

/-- Witness for C4 at concrete sources: the internal source always
throws, the normal source yields one transaction and the token source
one convertible transfer. -/
theorem c4_witness :
    process_wallet_transactions fetchN_one fetchI_err fetchT_one 10 0 =
      process_wallet_transactions fetchN_one (fun _ _ => Except.ok []) fetchT_one 10 0 ∧
    ((fetch_paginated fetchN_one 10).1.length +
        ((fetch_paginated fetchT_one 10).1.filterMap
          (convert_token_transfer_to_transaction 0)).length ≤ 10 →
      (process_wallet_transactions fetchN_one fetchI_err fetchT_one 10 0).Perm
        (((fetch_paginated fetchN_one 10).1 ++
            (fetch_paginated fetchT_one 10).1.filterMap
              (convert_token_transfer_to_transaction 0)).map
          categorize_single_transaction)) ∧
    (0 < 10 →
      ((fetch_paginated fetchN_one 10).1 ≠ [] ∨
        (fetch_paginated fetchT_one 10).1.filterMap
          (convert_token_transfer_to_transaction 0) ≠ []) →
      process_wallet_transactions fetchN_one fetchI_err fetchT_one 10 0 ≠ []) :=
  c4_internal_failure_isolated fetchN_one fetchI_err fetchT_one 10 0 "transport error"
    (fun _ _ => rfl)

/-- C1 counterexample: with a token source that raises a transport error
on every call and a normal source yielding one transaction,
ProcessWalletTransactions returns the one-element partial result instead
of re-raising the token branch's error; the failure is converted into an
empty token contribution. -/
theorem c1_counterexample :
    process_wallet_transactions fetchN_one fetchI_empty fetchT_err 10 0 = [txEx] := by
  have hN : (fetch_paginated fetchN_one 10).1 = [txEx] := rfl
  have hI2 : (fetch_paginated fetchI_empty 10).1 = [] := rfl
  have hT : (fetch_paginated fetchT_err 10).1 = [] := rfl
  simp only [process_wallet_transactions, hN, hI2, hT, List.filterMap_nil,
    List.append_nil, categorize_transactions]
  rw [List.mergeSort_singleton]
  rfl

/-- C1 (amended): the transport layer of the token endpoint re-raises a
transport error, but the pagination helper inside
ProcessWalletTransactions catches it, so a token source failing on every
call contributes an empty collection and the overall call returns the
same partial result as with an empty token source, rather than
propagating the error to the caller. -/
theorem c1_token_error_swallowed
    (fetchN : Nat → Nat → Except String (List Transaction))
    (fetchI : Nat → Nat → Except String (List InternalTransaction))
    (max_transactions now : Nat) (e : String) :
    get_token_transfers (Except.error e) = Except.error e ∧
    process_wallet_transactions fetchN fetchI (fun _ _ => Except.error e)
        max_transactions now =
      process_wallet_transactions fetchN fetchI (fun _ _ => Except.ok [])
        max_transactions now := by
  refine ⟨rfl, ?_⟩
  have h1 : (fetch_paginated (fun _ _ => (Except.error e : Except String (List TokenTransfer)))
      max_transactions).1 = [] :=
    fetch_paginated_error _ e max_transactions (fun _ _ => rfl)
  have h2 : (fetch_paginated (fun _ _ => Except.ok ([] : List TokenTransfer))
      max_transactions).1 = [] :=
    fetch_paginated_ok_nil _ max_transactions (fun _ _ => rfl)
  simp only [process_wallet_transactions, h1, h2]
